import Mathlib

/-!
Verification development for the marketing-copy HITL workflow backend
(`packages/convex-backend/convex`): the workflow engine (`agent.ts`),
the event projector (`streamHandler.ts`) and the session/message/approval
mutations (`messages.ts`) are embedded shallowly below, and the spec's
claims about them are settled as theorems.

External capabilities (the LLM, the trend providers' network responses,
and the JSON.parse library calls on free-form LLM text) are abstracted as
an oracle record; every piece of control flow, fallback logic, string
sanitization and state mutation is translated directly from the source.
-/

namespace MCA

/-! ## JavaScript-flavoured string helpers

These mirror the runtime semantics the source relies on: `||` on strings
(empty string is falsy), `String.prototype.trim`, and the handful of
regular expressions used by the idea sanitizers. -/

/-- JS `a || b` for strings: the empty string is falsy. -/
def jsOr (a b : String) : String := if a = ("") then b else a

/-- JS `a || b` where `a` is an optional string (absent or empty falls back). -/
def jsOrOpt (a : Option String) (b : String) : String :=
  match a with
  | some s => jsOr s b
  | none => b

/-- JS falsiness of an optional string argument (`!args.x`). -/
def jsFalsy (a : Option String) : Bool :=
  match a with
  | some s => s = ("")
  | none => true

/-- The JS `\s` class, restricted to the ASCII whitespace characters. -/
def isJsWs (c : Char) : Bool :=
  c = ' ' || c = '\t' || c = '\n' || c = '\r' || c = Char.ofNat 11 || c = Char.ofNat 12

/-- `String.prototype.trim` on a character list. -/
def trimChars (l : List Char) : List Char :=
  ((l.dropWhile isJsWs).reverse.dropWhile isJsWs).reverse

/-- `String.prototype.trim`. -/
def jsTrim (s : String) : String := String.mk (trimChars s.data)

/-- Substring test (used for the keyword sniffing fallbacks). -/
def containsSub (hay pat : String) : Bool := go hay.data
where
  go : List Char → Bool
    | [] => pat.data.isEmpty
    | c :: rest => pat.data.isPrefixOf (c :: rest) || go rest

/-- `String.prototype.startsWith`. -/
def strStartsWith (s pre : String) : Bool := pre.data.isPrefixOf s.data

/-- `String.prototype.endsWith`. -/
def strEndsWith (s suf : String) : Bool := suf.data.reverse.isPrefixOf s.data.reverse

/-- `String.prototype.toLowerCase` (character-wise). -/
def toLowerStr (s : String) : String := String.mk (s.data.map Char.toLower)

/-- `String.prototype.split` on one separator character (empty pieces kept). -/
def splitCharList (c : Char) : List Char → List (List Char)
  | [] => [[]]
  | x :: rest =>
      match splitCharList c rest with
      | h :: t => if x = c then [] :: h :: t else (x :: h) :: t
      | [] => [[x]]

/-- `s.split("\n")`. -/
def jsSplitNl (s : String) : List String :=
  (splitCharList '\n' s.data).map String.mk

/-- `Array.from(new Set(xs))`: de-duplicate keeping first occurrences. -/
def uniqOrder (l : List String) : List String := go l []
where
  go : List String → List String → List String
    | [], _ => []
    | x :: rest, seen => if seen.contains x then go rest seen else x :: go rest (x :: seen)

/-! ## Data model (`schema.ts`)

Timestamps are explicit `Nat` parameters (`Date.now()`), ISO-rendered
dates are oracle-provided strings. JS objects keyed by platform name are
insertion-ordered association lists. -/

/-- Session status union from `schema.ts`. -/
inductive Status
  | researching
  | waiting_approval
  | generating
  | complete
deriving DecidableEq, Repr

/-- The forward order of the status state machine (P3's order). -/
def statusRank : Status → Nat
  | .researching => 0
  | .waiting_approval => 1
  | .generating => 2
  | .complete => 3

/-- Trending-topic entries as the engine and projector construct them
(`{topic, reason, url, timestamp, confidence}`, all present as strings). -/
structure TrendingTopic where
  topic : String
  reason : String
  url : String
  timestamp : String
  confidence : String
deriving DecidableEq, Repr

/-- A confidence-score record (`{confidence, rationale}`). -/
structure ConfScore where
  confidence : String
  rationale : String
deriving DecidableEq, Repr

/-- Platform-keyed ideas map (a JS object in insertion order). -/
abbrev IdeasMap := List (String × List String)

/-- JS `obj[k] = v`: replace the binding in place if the key exists, else
append it. -/
def setKey : IdeasMap → String → List String → IdeasMap
  | [], k, v => [(k, v)]
  | (k', v') :: rest, k, v =>
      if k' = k then (k, v) :: rest else (k', v') :: setKey rest k v

/-- JS `obj[k]` lookup. -/
def getKey (m : IdeasMap) (k : String) : Option (List String) :=
  (m.find? (fun p => p.1 = k)).map Prod.snd

/-- A `sessions` table row. -/
structure Session where
  sessionId : String
  query : String
  platforms : List String
  research : Option String
  sources : Option (List String)
  trendingTopics : Option (List TrendingTopic)
  ideas : Option IdeasMap
  status : Status
  createdAt : Nat
  updatedAt : Nat
deriving DecidableEq, Repr

/-- A `messages` table row (metadata payloads are debugging glue and
carry no control flow; they are not modelled). -/
structure MessageRec where
  sessionId : String
  mtype : String
  content : String
  platform : Option String
  ideas : Option (List String)
  timestamp : Nat
deriving DecidableEq, Repr

/-- Raw trend candidate returned by a source adapter. -/
structure Candidate where
  title : String
  content : String
  url : String
  published_date : String
  source : String
  score : Option Int
  comments : Option Int
  subreddit : Option String
deriving DecidableEq, Repr

/-- Candidate enriched by the synthesis step (`{...candidate, summary,
why_it_matters, key_evidence}`). -/
structure EnrichedTrend where
  title : String
  content : String
  url : String
  published_date : String
  source : String
  score : Option Int
  comments : Option Int
  subreddit : Option String
  summary : String
  why_it_matters : String
  key_evidence : List String
deriving DecidableEq, Repr

/-- Research scope `{time_window, region, domain}`. -/
structure Scope where
  time_window : String
  region : String
  domain : String
deriving DecidableEq, Repr

/-- The default scope used on parse fallback. -/
def defaultScope : Scope :=
  { time_window := ("last 30 days"), region := ("global"), domain := ("general") }

/-- A `pendingApprovals` table row. -/
structure PendingApproval where
  sessionId : String
  research : Option String
  researchReport : Option String
  sources : Option (List String)
  trendingTopics : Option (List TrendingTopic)
  enrichedTrends : Option (List EnrichedTrend)
  confidenceScores : Option (List (String × ConfScore))
  scope : Option Scope
  platforms : List String
  originalQuery : String
  mode : Option String
  approved : Option Bool
  needsRefinement : Option Bool
  createdAt : Nat
deriving DecidableEq, Repr

/-- The whole document store. -/
structure DB where
  sessions : List Session
  messages : List MessageRec
  pendingApprovals : List PendingApproval
deriving DecidableEq, Repr

/-- `ctx.db.patch` on the record returned by `.first()`: patch the first
row matching the session id. -/
def patchFirstSession (l : List Session) (sid : String) (f : Session → Session) :
    List Session :=
  match l with
  | [] => []
  | s :: rest =>
      if s.sessionId = sid then f s :: rest
      else s :: patchFirstSession rest sid f

/-- Same, for pending approvals. -/
def patchFirstApproval (l : List PendingApproval) (sid : String)
    (f : PendingApproval → PendingApproval) : List PendingApproval :=
  match l with
  | [] => []
  | p :: rest =>
      if p.sessionId = sid then f p :: rest
      else p :: patchFirstApproval rest sid f

/-- `.withIndex("by_session").first()` over sessions. -/
def findSession (db : DB) (sid : String) : Option Session :=
  db.sessions.find? (fun s => s.sessionId = sid)

/-! ## Session facade mutations (`messages.ts`) -/

/-- `createSession`: unconditionally inserts a fresh session row. -/
def createSession (db : DB) (sessionId query : String) (platforms : List String)
    (now : Nat) : DB :=
  { db with sessions := db.sessions ++
      [{ sessionId := sessionId, query := query, platforms := platforms,
         research := none, sources := none, trendingTopics := none,
         ideas := none, status := .researching, createdAt := now,
         updatedAt := now }] }

/-- Optional argument fields of `updateSession` (absent keys are not patched). -/
structure UpdateSessionArgs where
  sessionId : String
  query : Option String := none
  research : Option String := none
  sources : Option (List String) := none
  trendingTopics : Option (List TrendingTopic) := none
  ideas : Option IdeasMap := none
  status : Option Status := none
deriving Repr

/-- Patch semantics for a provided-or-absent argument field. -/
def patchField {α : Type} (new : Option α) (old : α) : α :=
  match new with
  | some v => v
  | none => old

/-- Patch semantics for an optional stored field. -/
def patchOptField {α : Type} (new : Option α) (old : Option α) : Option α :=
  match new with
  | some v => some v
  | none => old

/-- `updateSession`: throws (`none`) when the session is missing, otherwise
patches exactly the provided fields, including `status` (no guard). -/
def updateSession (db : DB) (a : UpdateSessionArgs) (now : Nat) : Option DB :=
  match findSession db a.sessionId with
  | none => none
  | some _ =>
      some { db with sessions := patchFirstSession db.sessions a.sessionId (fun s =>
        { s with
          query := patchField a.query s.query
          research := patchOptField a.research s.research
          sources := patchOptField a.sources s.sources
          trendingTopics := patchOptField a.trendingTopics s.trendingTopics
          ideas := patchOptField a.ideas s.ideas
          status := patchField a.status s.status
          updatedAt := now }) }

/-- `updateIdeas`: replaces the platform's ideas array and applies `status`
only when provided and the current status is not `complete`. -/
def updateIdeas (db : DB) (sessionId platform : String) (ideas : List String)
    (status : Option Status) (now : Nat) : Option DB :=
  match findSession db sessionId with
  | none => none
  | some _ =>
      some { db with sessions := patchFirstSession db.sessions sessionId (fun s =>
        let currentIdeas := s.ideas.getD []
        let newIdeas := setKey currentIdeas platform ideas
        let newStatus :=
          match status with
          | some st => if s.status ≠ .complete then st else s.status
          | none => s.status
        { s with ideas := some newIdeas, status := newStatus, updatedAt := now }) }

/-- `resetSession`: clears research/sources/trendingTopics/ideas, returns
status to `researching`, keeps identity, and keeps the query unless a
truthy replacement is supplied (`args.query || session.query`). -/
def resetSession (db : DB) (sessionId : String) (query : Option String)
    (now : Nat) : Option DB :=
  match findSession db sessionId with
  | none => none
  | some _ =>
      some { db with sessions := patchFirstSession db.sessions sessionId (fun s =>
        { s with
          query := jsOrOpt query s.query
          research := none
          sources := none
          trendingTopics := none
          ideas := none
          status := .researching
          updatedAt := now }) }

/-- `addMessage`: append-only insert into the message log. -/
def addMessage (db : DB) (sessionId mtype content : String)
    (platform : Option String) (ideas : Option (List String)) (now : Nat) : DB :=
  { db with messages := db.messages ++
      [{ sessionId := sessionId, mtype := mtype, content := content,
         platform := platform, ideas := ideas, timestamp := now }] }

/-- `deleteMessages`: bulk delete of a session's log. -/
def deleteMessages (db : DB) (sessionId : String) : DB :=
  { db with messages := db.messages.filter (fun m => m.sessionId ≠ sessionId) }

/-- Content fields written by `storePendingApproval` (last-write-wins). -/
structure StoreApprovalArgs where
  sessionId : String
  research : Option String
  researchReport : Option String
  sources : Option (List String)
  trendingTopics : Option (List TrendingTopic)
  enrichedTrends : Option (List EnrichedTrend)
  confidenceScores : Option (List (String × ConfScore))
  scope : Option Scope
  platforms : List String
  originalQuery : String
  mode : Option String
deriving Repr

/-- `storePendingApproval`: fully replaces (or inserts) the single
per-session pending-approval record, resetting `approved` to `false`. -/
def storePendingApproval (db : DB) (a : StoreApprovalArgs) (now : Nat) : DB :=
  let data : PendingApproval :=
    { sessionId := a.sessionId, research := a.research,
      researchReport := a.researchReport, sources := a.sources,
      trendingTopics := a.trendingTopics, enrichedTrends := a.enrichedTrends,
      confidenceScores := a.confidenceScores, scope := a.scope,
      platforms := a.platforms, originalQuery := a.originalQuery,
      mode := a.mode, approved := some false, needsRefinement := some false,
      createdAt := now }
  match db.pendingApprovals.find? (fun p => p.sessionId = a.sessionId) with
  | some _ =>
      { db with pendingApprovals :=
          patchFirstApproval db.pendingApprovals a.sessionId (fun _ => data) }
  | none =>
      { db with pendingApprovals := db.pendingApprovals ++ [data] }

/-- `getPendingApproval` (`.first()` by session id). -/
def getPendingApproval (db : DB) (sid : String) : Option PendingApproval :=
  db.pendingApprovals.find? (fun p => p.sessionId = sid)

/-- `updatePendingApproval`: throws (`none`) when absent; otherwise patches
`approved` and `needsRefinement` to the given (possibly absent) values. -/
def updatePendingApproval (db : DB) (sid : String)
    (approved needsRefinement : Option Bool) : Option DB :=
  match getPendingApproval db sid with
  | none => none
  | some _ =>
      some { db with pendingApprovals :=
        patchFirstApproval db.pendingApprovals sid (fun p =>
          { p with approved := approved, needsRefinement := needsRefinement }) }

/-! ## Event protocol (`agent.ts` yields, §4.2)

The engine's event stream is a closed tagged union. The research payload
shared by `research_complete` and `approval_required` is factored into
one structure, exactly the six fields both yields carry. -/

/-- The research payload fields of `research_complete`/`approval_required`. -/
structure ResearchPayload where
  research : String
  research_report : String
  sources : List String
  trending_topics : List TrendingTopic
  enriched_trends : List EnrichedTrend
  confidence_scores : List (String × ConfScore)
deriving DecidableEq, Repr

/-- Engine events. `trend_retrieval_complete` carries an optional
`enriched_trends` field because the projector reads it defensively (the
engine in `agent.ts` never sets it). The two `*PartialEvt` tags model the
`research_partial` / `research_report_partial` strings the projector
recognises but this engine never emits. -/
inductive Event
  | step (stepId message : String)
  | research_plan_complete (scope : Scope) (tools_to_use : List String) (message : String)
  | trend_candidate (title source url : String)
  | trend_retrieval_complete (candidates_count enriched_count : Nat)
      (enriched_trends : Option (List EnrichedTrend)) (message : String)
  | research_complete (payload : ResearchPayload)
  | approval_required (message : String) (payload : ResearchPayload)
  | idea_stream (platform : String) (ideas : List String)
  | complete (ideas : IdeasMap)
  | researchPartialEvt
  | researchReportPartialEvt
deriving DecidableEq, Repr

/-! ## Idea sanitization (`streamHandler.ts`, `idea_stream` and `complete`)

Each JS regex in the two cleanup pipelines is translated to an explicit
character-list transformation. -/

/-- Characters of the class `["',\s]` (leading/trailing noise, stream path). -/
def isQCWs (c : Char) : Bool :=
  c = '"' || c = Char.ofNat 39 || c = ',' || isJsWs c

/-- Characters of the class `["',]` (leading/trailing noise, complete path). -/
def isQC (c : Char) : Bool :=
  c = '"' || c = Char.ofNat 39 || c = ','

/-- Characters of the class `[\[\]{}",\s]` (pure JSON structure). -/
def isStructChar (c : Char) : Bool :=
  c = '[' || c = ']' || c = Char.ofNat 123 || c = Char.ofNat 125 ||
    c = '"' || c = ',' || isJsWs c

/-- `str.match(/^[\[\]{}",\s]+$/)`: non-empty and all structure characters. -/
def isPureStruct (s : String) : Bool :=
  s.length > 0 && s.data.all isStructChar

/-- `.replace(/^```json\s*/i, "")`. -/
def stripFenceJson (l : List Char) : List Char :=
  if (l.take 7).map Char.toLower = ("```json").data then
    (l.drop 7).dropWhile isJsWs
  else l

/-- `.replace(/^```\s*/, "")`. -/
def stripFencePlain (l : List Char) : List Char :=
  if l.take 3 = ("```").data then (l.drop 3).dropWhile isJsWs else l

/-- `.replace(/\s*```$/, "")`. -/
def stripFenceEnd (l : List Char) : List Char :=
  let r := l.reverse
  if r.take 3 = ("```").data then ((r.drop 3).dropWhile isJsWs).reverse else l

/-- `.replace(/^\[\s*/, "")`. -/
def stripBracketStart (l : List Char) : List Char :=
  match l with
  | '[' :: rest => rest.dropWhile isJsWs
  | _ => l

/-- `.replace(/\s*\]$/, "")`. -/
def stripBracketEnd (l : List Char) : List Char :=
  match l.reverse with
  | ']' :: rest => (rest.dropWhile isJsWs).reverse
  | _ => l

/-- `.replace(/\\"/g, "\"")`. -/
def replEscQuote : List Char → List Char
  | [] => []
  | '\\' :: '"' :: rest => '"' :: replEscQuote rest
  | c :: rest => c :: replEscQuote rest

/-- `.replace(/\\n/g, " ")`. -/
def replEscN : List Char → List Char
  | [] => []
  | '\\' :: 'n' :: rest => ' ' :: replEscN rest
  | c :: rest => c :: replEscN rest

/-- `.replace(/,\s*$/, "")`. -/
def stripTrailingComma (l : List Char) : List Char :=
  match l.reverse.dropWhile isJsWs with
  | ',' :: rest => rest.reverse
  | _ => l

/-- The per-idea cleanup of the `idea_stream` branch. -/
def cleanIdeaStream (idea : String) : String :=
  let l := idea.data
  let l := stripFenceJson l
  let l := stripFencePlain l
  let l := stripFenceEnd l
  let l := stripBracketStart l
  let l := stripBracketEnd l
  let l := trimChars l
  let l := l.dropWhile isQCWs
  let l := (l.reverse.dropWhile isQCWs).reverse
  let l := replEscQuote l
  let l := replEscN l
  String.mk (stripTrailingComma l)

/-- The per-idea cleanup of the `complete` branch (leading/trailing class
`["',]`, without `\s`). -/
def cleanIdeaComplete (idea : String) : String :=
  let l := idea.data
  let l := stripFenceJson l
  let l := stripFencePlain l
  let l := stripFenceEnd l
  let l := stripBracketStart l
  let l := stripBracketEnd l
  let l := trimChars l
  let l := l.dropWhile isQC
  let l := (l.reverse.dropWhile isQC).reverse
  let l := replEscQuote l
  let l := replEscN l
  String.mk (stripTrailingComma l)

/-- First filter of the `idea_stream` branch (drops structure markers). -/
def streamPreFilter (item : String) : Bool :=
  let str := jsTrim item
  str != ("```json") && str != ("```") && str != ("[") && str != ("]") &&
    str != (",") && str.length > 0 && !(isPureStruct str)

/-- Final filter of the `idea_stream` branch (5-character floor plus
structure guards). -/
def streamPostFilter (idea : String) : Bool :=
  let str := jsTrim idea
  str.length > 5 && !(isPureStruct str) && str != ("```json") && str != ("```") &&
    !(strStartsWith str ("\"") && strEndsWith str ("\"") && str.length < 10)

/-- `idea_stream` sanitization pipeline: filter, clean, filter. -/
def sanitizeIdeaStream (ideas : List String) : List String :=
  ((ideas.filter streamPreFilter).map cleanIdeaStream).filter streamPostFilter

/-- First filter of the `complete` branch. -/
def completePreFilter (item : String) : Bool :=
  let str := jsTrim item
  str != ("```json") && str != ("```") && str != ("[") && str != ("]") &&
    str.length > 0

/-- Final filter of the `complete` branch (10-character floor). -/
def completePostFilter (idea : String) : Bool :=
  let str := jsTrim idea
  str.length > 10 && !(isPureStruct str) && !(strStartsWith str ("\"")) &&
    !(strEndsWith str ("\""))

/-- `complete` sanitization pipeline: filter, clean, filter. -/
def sanitizeComplete (ideas : List String) : List String :=
  ((ideas.filter completePreFilter).map cleanIdeaComplete).filter completePostFilter

/-! ## Event projector (`streamHandler.ts :: handleStreamEvent`) -/

/-- The timing capabilities the projector consumes (`Date.now()`,
`new Date().toISOString()`, `toLocaleDateString`). -/
structure Clock where
  now : Nat
  nowIso : String
  localeDate : String → String

/-- One markdown block of `formatPartialResearch`. -/
def topicBlock (localeDate : String → String) (i : Nat) (t : TrendingTopic) : String :=
  ("### ") ++ toString (i + 1) ++ (". ") ++ t.topic ++ ("\n\n") ++
  ("**Why it matters**: ") ++ t.reason ++ ("\n\n") ++
  (if t.url ≠ ("") then ("**Source**: [View source](") ++ t.url ++ (")\n\n") else ("")) ++
  (if t.timestamp ≠ ("") then ("**Published**: ") ++ localeDate t.timestamp ++ ("\n\n") else ("")) ++
  (if t.confidence ≠ ("") then ("**Confidence**: ") ++ t.confidence ++ ("\n\n") else ("")) ++
  ("---\n\n")

/-- `formatPartialResearch`: the live-updating markdown projection. -/
def formatPartialResearch (localeDate : String → String)
    (trendingTopics : List TrendingTopic) (sources : List String) : String :=
  let header := ("# Research Report (In Progress)\n\n") ++
    ("*Finding trends... ") ++ toString trendingTopics.length ++ (" trend") ++
    (if trendingTopics.length ≠ 1 then ("s") else ("")) ++ (" discovered so far.*\n\n")
  let topicsBlock :=
    if trendingTopics.length > 0 then
      ("## Top Trends Discovered\n\n") ++
        String.join (trendingTopics.mapIdx (fun i t => topicBlock localeDate i t))
    else ("")
  let sourcesBlock :=
    if sources.length > 0 then
      ("## Sources\n\n") ++
        String.join (sources.mapIdx (fun i s =>
          toString (i + 1) ++ (". [") ++ s ++ ("](") ++ s ++ (")\n")))
    else ("")
  header ++ topicsBlock ++ sourcesBlock

/-- `handleStreamEvent`: projects one engine event onto the message log and
session record; `none` models a thrown error. -/
def handleStreamEvent (ck : Clock) (db : DB) (sid : String) (e : Event) :
    Option DB :=
  let session? := findSession db sid
  match e with
  | .research_plan_complete _ _ _ => some db
  | .researchReportPartialEvt => some db
  | .researchPartialEvt => some db
  | .trend_candidate title source url =>
      match session? with
      | none => some db
      | some session =>
          let currentTopics := session.trendingTopics.getD []
          let newTopic : TrendingTopic :=
            { topic := jsOr title ("Trending topic"),
              reason := ("Found from ") ++ jsOr source ("web"),
              url := url, timestamp := ck.nowIso, confidence := ("Medium") }
          if currentTopics.any (fun t => t.url = newTopic.url || t.topic = newTopic.topic) then
            some db
          else do
            let updatedTopics := currentTopics ++ [newTopic]
            let db ← updateSession db
              { sessionId := sid, trendingTopics := some updatedTopics } ck.now
            let partialResearch :=
              formatPartialResearch ck.localeDate updatedTopics (session.sources.getD [])
            let db ← updateSession db
              { sessionId := sid, research := some partialResearch } ck.now
            some (addMessage db sid ("research") partialResearch none none ck.now)
  | .trend_retrieval_complete cc ec etr _ =>
      let content := ("Found ") ++ toString cc ++ (" trend candidates, enriched ") ++
        toString ec ++ (" trends")
      match session?, etr with
      | some session, some trends => do
          let enrichedTopics := trends.mapIdx (fun i t =>
            ({ topic := jsOr t.title (("Trend ") ++ toString (i + 1)),
               reason := jsOr t.why_it_matters ("Relevant trend for marketing"),
               url := t.url, timestamp := jsOr t.published_date ck.nowIso,
               confidence := ("Medium") } : TrendingTopic))
          let db ← updateSession db
            { sessionId := sid, trendingTopics := some enrichedTopics } ck.now
          let partialResearch :=
            formatPartialResearch ck.localeDate enrichedTopics (session.sources.getD [])
          let db ← updateSession db
            { sessionId := sid, research := some partialResearch } ck.now
          let db := addMessage db sid ("research") partialResearch none none ck.now
          some (addMessage db sid ("step") content none none ck.now)
      | _, _ => some (addMessage db sid ("step") content none none ck.now)
  | .step _ msg =>
      let content := jsOr msg ("Processing...")
      some (addMessage db sid ("step") content none none ck.now)
  | .research_complete p => do
      let content := jsOr p.research ("Research completed")
      let db := addMessage db sid ("research") content none none ck.now
      updateSession db
        { sessionId := sid, research := some p.research, sources := some p.sources,
          trendingTopics := some p.trending_topics,
          status := some .waiting_approval } ck.now
  | .approval_required msg p => do
      let content := jsOr msg ("Research complete. Waiting for your approval to proceed.")
      let db := addMessage db sid ("approval") content none none ck.now
      updateSession db
        { sessionId := sid, research := some (jsOr p.research p.research_report),
          sources := some p.sources, trendingTopics := some p.trending_topics,
          status := some .waiting_approval } ck.now
  | .idea_stream platform rawIdeas =>
      let content := ("Generated ") ++ toString rawIdeas.length ++
        (" ideas for ") ++ platform
      let db := addMessage db sid ("idea") content (some platform) (some rawIdeas) ck.now
      let cleanedIdeas := sanitizeIdeaStream rawIdeas
      match findSession db sid with
      | none => none
      | some _ =>
          some { db with sessions := patchFirstSession db.sessions sid (fun s =>
            { s with
              ideas := some (setKey (s.ideas.getD []) platform cleanedIdeas),
              updatedAt := ck.now }) }
  | .complete ideasMap =>
      let cleanedIdeas := ideasMap.map (fun pi => (pi.1, sanitizeComplete pi.2))
      match findSession db sid with
      | none => some db
      | some _ =>
          updateSession db
            { sessionId := sid, ideas := some cleanedIdeas,
              status := some .complete } ck.now

/-! ## Workflow engine (`agent.ts :: MarketingCopyAgent`)

The LLM, the configured trend providers' network responses, and the
`JSON.parse`-based extraction of structured data from free-form LLM text
are external capabilities; they are supplied by an `Oracle` record. LLM
invocations and configured network fetches consume a shared call counter,
so call accounting is observable. All fallback control flow (regex-miss,
parse-throw, keyword sniffing, simulation mode) is translated from the
source. -/

/-- Outcome of `scopeText.match(/\{.*?\}/s)` + `JSON.parse`: no brace
match, a parsed scope, or a parse exception. -/
inductive ScopeOutcome
  | noMatch
  | parsed (s : Scope)
  | parseError
deriving Repr

/-- Outcome of the enrichment JSON extraction (parsed fields may be
absent from the parsed object). -/
inductive EnrichOutcome
  | noMatch
  | parsed (summary why : Option String) (evidence : Option (List String))
  | parseError
deriving Repr

/-- Fields of the fast-mode JSON payload (each may be absent). -/
structure FastParsed where
  research_report : Option String
  sources : Option (List String)
  trending_topics : Option (List TrendingTopic)
  enriched_trends : Option (List EnrichedTrend)
  confidence_scores : Option (List (String × ConfScore))
deriving Repr

/-- Outcome of `responseText.match(/\{.*"trending_topics".*\}/s)` +
`JSON.parse` in fast mode. -/
inductive FastOutcome
  | noMatch
  | parsed (p : FastParsed)
  | parseError
deriving Repr

/-- Outcome of `JSON.parse` on the cleaned idea text: an array, a
non-array JSON value, or a parse exception. -/
inductive ArrOutcome
  | arr (l : List String)
  | nonArray
  | throwErr
deriving Repr

/-- Credential configuration (`OPENAI_API_KEY` is required at
construction; the two optional credentials toggle simulation mode). -/
structure Config where
  tavilyConfigured : Bool
  composioKeyConfigured : Bool
  composioUserConfigured : Bool
deriving Repr

/-- The external capabilities consumed by one agent instance. `llm n` is
the text of the `n`-th external call when it is an LLM invocation;
`tavilyResults n` is the candidate list when the `n`-th external call is
a configured Tavily search (errors are already folded to `[]` by the
source's catch). The `*Parse` fields abstract `JSON.parse` on LLM text. -/
structure Oracle where
  llm : Nat → String
  scopeParse : String → ScopeOutcome
  enrichParse : String → EnrichOutcome
  fastParse : String → FastOutcome
  arrParse : String → ArrOutcome
  tavilyResults : Nat → List Candidate
  findUrls : String → List String
  nowIso : String
  yesterdayIso : String

/-- The engine's accumulated state (the `AgentState` interface). -/
structure AgentState where
  query : String
  platforms : List String
  research : String
  sources : List String
  trendingTopics : List TrendingTopic
  needsApproval : Bool
  approved : Bool
  ideas : IdeasMap
  currentStep : String
  sessionId : String
  scope : Scope
  toolsToUse : List String
  trendCandidates : List Candidate
  enrichedTrends : List EnrichedTrend
  researchReport : String
  confidenceScores : List (String × ConfScore)
deriving DecidableEq, Repr

/-- The initial state built at the top of `runStream`. -/
def initialAgentState (query : String) (platforms : List String)
    (sessionId : String) : AgentState :=
  { query := query, platforms := platforms, research := (""), sources := [],
    trendingTopics := [], needsApproval := false, approved := false,
    ideas := [], currentStep := ("starting"), sessionId := sessionId,
    scope := defaultScope, toolsToUse := [], trendCandidates := [],
    enrichedTrends := [], researchReport := (""), confidenceScores := [] }

/-- `researchPlanNode`: scope inference with keyword-sniffing fallback on
parse exception, then tool selection (simulation tools when nothing is
configured). -/
def researchPlanNode (cfg : Config) (o : Oracle) (s : AgentState) (i : Nat) :
    AgentState × Nat :=
  let scopeText := o.llm i
  let i := i + 1
  let scope :=
    match o.scopeParse scopeText with
    | .noMatch => defaultScope
    | .parsed sc => sc
    | .parseError =>
        let lower := toLowerStr scopeText
        if containsSub lower ("week") || containsSub lower ("7 days") then
          { defaultScope with time_window := ("last 7 days") }
        else if containsSub lower ("month") || containsSub lower ("30 days") then
          { defaultScope with time_window := ("last 30 days") }
        else if containsSub lower ("quarter") || containsSub lower ("3 months") then
          { defaultScope with time_window := ("last 3 months") }
        else defaultScope
  let toolsToUse :=
    (if cfg.tavilyConfigured then [("tavily")] else []) ++
      (if cfg.composioKeyConfigured && cfg.composioUserConfigured then [("reddit")] else [])
  let toolsToUse := if toolsToUse.isEmpty then [("tavily"), ("reddit")] else toolsToUse
  ({ s with
      scope := scope, toolsToUse := toolsToUse,
      currentStep := ("research_plan_complete") }, i)

/-- `fetchFromTavily`: deterministic simulated candidate when
unconfigured, otherwise one external call (errors already `[]`). -/
def fetchFromTavily (cfg : Config) (o : Oracle) (i : Nat) (query : String)
    (scope : Scope) : List Candidate × Nat :=
  if !cfg.tavilyConfigured then
    ([{ title := ("Trending: ") ++ query ++ (" in ") ++ jsOr scope.domain ("technology"),
        content := ("Recent developments in ") ++ query ++
          (" show significant growth and adoption."),
        url := ("https://example.com/trend1"), published_date := o.nowIso,
        source := ("tavily"), score := none, comments := none, subreddit := none }], i)
  else
    (o.tavilyResults i, i + 1)

/-- `fetchFromReddit`: simulated candidate when unconfigured; the
configured path returns `[]` in the source. -/
def fetchFromReddit (cfg : Config) (o : Oracle) (query : String) : List Candidate :=
  if !(cfg.composioKeyConfigured && cfg.composioUserConfigured) then
    [{ title := ("Discussion: ") ++ query ++ (" is gaining traction"),
       content := ("Community discussion about ") ++ query ++
         (" shows increasing interest."),
       url := ("https://reddit.com/r/technology/example"),
       published_date := o.yesterdayIso, source := ("reddit"),
       score := some 150, comments := some 45, subreddit := some ("technology") }]
  else []

/-- Enrichment of one candidate: one LLM call, JSON extraction with two
fallbacks (`{}` on regex miss, deterministic enrichment on parse throw). -/
def enrichOne (o : Oracle) (c : Candidate) (i : Nat) : EnrichedTrend × Nat :=
  let enrichmentText := o.llm i
  let i := i + 1
  let base : EnrichedTrend :=
    { title := c.title, content := c.content, url := c.url,
      published_date := c.published_date, source := c.source, score := c.score,
      comments := c.comments, subreddit := c.subreddit,
      summary := (""), why_it_matters := (""), key_evidence := [] }
  match o.enrichParse enrichmentText with
  | .noMatch =>
      ({ base with
          summary := jsOr c.title (""),
          why_it_matters := ("Relevant trend"), key_evidence := [c.url] }, i)
  | .parsed summ why ev =>
      ({ base with
          summary := jsOrOpt summ (jsOr c.title ("")),
          why_it_matters := jsOrOpt why ("Relevant trend"),
          key_evidence := ev.getD [c.url] }, i)
  | .parseError =>
      ({ base with
          summary := jsOr (String.mk (enrichmentText.data.take 200)) (jsOr c.title ("")),
          why_it_matters := ("Relevant trend for target audience"),
          key_evidence := [c.url] }, i)

/-- Sequential enrichment of the capped candidate list. -/
def enrichAll (o : Oracle) : List Candidate → Nat → List EnrichedTrend × Nat
  | [], i => ([], i)
  | c :: rest, i =>
      let (e, i') := enrichOne o c i
      let (es, i'') := enrichAll o rest i'
      (e :: es, i'')

/-- `trendRetrievalNode`: fetch from each selected tool, then enrich the
first 15 candidates. -/
def trendRetrievalNode (cfg : Config) (o : Oracle) (s : AgentState) (i : Nat) :
    AgentState × Nat :=
  let (tavilyList, i) :=
    if s.toolsToUse.contains ("tavily") then fetchFromTavily cfg o i s.query s.scope
    else ([], i)
  let redditList :=
    if s.toolsToUse.contains ("reddit") then fetchFromReddit cfg o s.query
    else []
  let trendCandidates := tavilyList ++ redditList
  let (enrichedTrends, i) := enrichAll o (trendCandidates.take 15) i
  ({ s with
      trendCandidates := trendCandidates, enrichedTrends := enrichedTrends,
      currentStep := ("trend_retrieval_complete") }, i)

/-- Rule-based confidence scoring of a single trend (the loop body of
`researchReportNode`). -/
def trendConfidence (trend : EnrichedTrend) : ConfScore :=
  let sourceFactors : List String :=
    if trend.source = ("tavily") then [("High-quality web source")]
    else if trend.source = ("reddit") then
      if trend.score.getD 0 > 100 then [("High Reddit engagement")]
      else [("Moderate Reddit engagement")]
    else []
  let evidenceCount := trend.key_evidence.length
  let evidenceFactors : List String :=
    if evidenceCount ≥ 2 then [("Multiple supporting sources")]
    else if evidenceCount = 1 then [("Single supporting source")]
    else []
  let confidenceValue : String :=
    if evidenceCount ≥ 2 then ("High")
    else if evidenceCount = 1 then ("Medium")
    else ("Low")
  { confidence := confidenceValue,
    rationale := jsOr (String.intercalate ("; ") (sourceFactors ++ evidenceFactors))
      ("Standard trend analysis") }

/-- The `trend_i`-keyed confidence map over the top trends. -/
def confidenceScoresFor (topTrends : List EnrichedTrend) :
    List (String × ConfScore) :=
  topTrends.mapIdx (fun i t => (("trend_") ++ toString i, trendConfidence t))

/-- Lookup in a `trend_i`-keyed confidence map. -/
def lookupScore (m : List (String × ConfScore)) (k : String) : Option ConfScore :=
  (m.find? (fun p => p.1 = k)).map Prod.snd

/-- `researchReportNode`: caps to the top 10 enriched trends, computes
rule-based confidence scores, makes one LLM call for the report text, and
derives sources and trending topics. -/
def researchReportNode (_cfg : Config) (o : Oracle) (s : AgentState) (i : Nat) :
    AgentState × Nat :=
  let topTrends := s.enrichedTrends.take 10
  let confidenceScores := confidenceScoresFor topTrends
  let researchReport := o.llm i
  let i := i + 1
  let sources := uniqOrder ((topTrends.map (fun t => t.url)).filter (fun u => u ≠ ("")))
  let trendingTopics := topTrends.mapIdx (fun idx t =>
    ({ topic := jsOr t.title (""), reason := jsOr t.why_it_matters (""),
       url := jsOr t.url (""), timestamp := jsOr t.published_date (""),
       confidence :=
         jsOrOpt ((lookupScore confidenceScores (("trend_") ++ toString idx)).map
           (fun cs => cs.confidence)) ("Medium") } : TrendingTopic))
  ({ s with
      research := researchReport, researchReport := researchReport,
      sources := sources, trendingTopics := trendingTopics,
      confidenceScores := confidenceScores,
      currentStep := ("research_report_complete"), needsApproval := true }, i)

/-- The graph executor built by `buildDeepModeGraph`: its `invoke` runs
the three nodes in sequence over the given state. -/
def graphInvoke (cfg : Config) (o : Oracle) (s : AgentState) (i : Nat) :
    AgentState × Nat :=
  let (s, i) := researchPlanNode cfg o s i
  let (s, i) := trendRetrievalNode cfg o s i
  researchReportNode cfg o s i

/-- The six payload fields both research events carry, read off a state. -/
def payloadOf (s : AgentState) : ResearchPayload :=
  { research := s.research, research_report := s.researchReport,
    sources := s.sources, trending_topics := s.trendingTopics,
    enriched_trends := s.enrichedTrends,
    confidence_scores := s.confidenceScores }

/-- Deep-mode `runStream`: steps through the three nodes manually for
event streaming, then additionally runs the graph executor's `invoke`
over the already-updated state; the emitted research payload is read from
that final state. Returns the yielded events, the final state, and the
external-call counter. -/
def runStreamDeep (cfg : Config) (o : Oracle) (query : String)
    (platforms : List String) (sessionId : String) :
    List Event × AgentState × Nat :=
  let s0 := initialAgentState query platforms sessionId
  let (s1, i1) := researchPlanNode cfg o s0 0
  let planMsg := ("Scope: ") ++ s1.scope.time_window ++ (", ") ++
    s1.scope.region ++ (", ") ++ s1.scope.domain ++ (". Tools: ") ++
    String.intercalate (", ") s1.toolsToUse
  let (s2, i2) := trendRetrievalNode cfg o s1 i1
  let candidateEvents := s2.trendCandidates.map (fun c =>
    Event.trend_candidate c.title c.source c.url)
  let retrievalMsg := ("Found ") ++ toString s2.trendCandidates.length ++
    (" trend candidates, enriched ") ++ toString s2.enrichedTrends.length ++
    (" trends")
  let (s3, i3) := researchReportNode cfg o s2 i2
  let (s4, i4) := graphInvoke cfg o s3 i3
  ([Event.step ("research_plan") ("Clarifying research scope and selecting tools...")]
    ++ [Event.research_plan_complete s1.scope s1.toolsToUse planMsg]
    ++ [Event.step ("trend_retrieval") ("Fetching trend candidates and enriching with sources...")]
    ++ candidateEvents
    ++ [Event.trend_retrieval_complete s2.trendCandidates.length
          s2.enrichedTrends.length none retrievalMsg]
    ++ [Event.step ("research_report") ("Synthesizing research report...")]
    ++ [Event.research_complete (payloadOf s4)]
    ++ [Event.approval_required
          ("Research complete. Waiting for your approval to proceed.")
          (payloadOf s4)],
   s4, i4)

/-- `runFastMode`: one LLM call, three-tier extraction (strict JSON, URL
harvesting on regex miss or parse throw), then default back-fills, then
the paired research events. -/
def runFastMode (o : Oracle) (query : String) (platforms : List String) :
    List Event × Nat :=
  let responseText := o.llm 0
  let i := 1
  let parsedFields :=
    match o.fastParse responseText with
    | .parsed pd =>
        (jsOr (pd.research_report.getD ("")) responseText,
         pd.sources.getD [], pd.trending_topics.getD [],
         pd.enriched_trends.getD [], pd.confidence_scores.getD [])
    | .noMatch =>
        let urls := uniqOrder (o.findUrls responseText)
        (responseText, urls,
         (urls.take 5).mapIdx (fun idx u =>
           ({ topic := ("Trend ") ++ toString (idx + 1),
              reason := ("Relevant trend identified in research"), url := u,
              timestamp := o.nowIso, confidence := ("Medium") } : TrendingTopic)),
         [], [])
    | .parseError =>
        let urls := uniqOrder (o.findUrls responseText)
        (responseText, urls,
         (urls.take 5).mapIdx (fun idx u =>
           ({ topic := ("Trend ") ++ toString (idx + 1),
              reason := ("Relevant trend from research"), url := u,
              timestamp := o.nowIso, confidence := ("Medium") } : TrendingTopic)),
         [], [])
  let researchReport := parsedFields.1
  let sources := parsedFields.2.1
  let trendingTopics := parsedFields.2.2.1
  let enrichedTrends := parsedFields.2.2.2.1
  let confidenceScores := parsedFields.2.2.2.2
  let researchReport :=
    if researchReport = ("") then
      ("# Research Report: ") ++ query ++ ("\n\nResearch generated for ") ++
        query ++ (" targeting ") ++ String.intercalate (", ") platforms ++ (".")
    else researchReport
  let trendingTopics :=
    if trendingTopics.isEmpty then
      [({ topic := ("Relevant trend for ") ++ query,
          reason := ("Identified through research"), url := (""),
          timestamp := o.nowIso, confidence := ("Medium") } : TrendingTopic)]
    else trendingTopics
  let confidenceScores :=
    if confidenceScores.isEmpty then
      trendingTopics.mapIdx (fun idx t =>
        (("trend_") ++ toString idx,
         ({ confidence := jsOr t.confidence ("Medium"),
            rationale := ("Fast mode analysis") } : ConfScore)))
    else confidenceScores
  let payload : ResearchPayload :=
    { research := researchReport, research_report := researchReport,
      sources := sources, trending_topics := trendingTopics,
      enriched_trends := enrichedTrends, confidence_scores := confidenceScores }
  ([Event.step ("fast_research") ("Generating research report (Fast mode)..."),
    Event.research_complete payload,
    Event.approval_required
      ("Research complete. Waiting for your approval to proceed.") payload], i)

/-- `runStream`: fast mode delegates, deep mode runs the pipeline. The
`isRefinement` flag is informational only (as in the source). -/
def runStream (cfg : Config) (o : Oracle) (query : String)
    (platforms : List String) (sessionId : String) (_isRefinement : Bool)
    (mode : String) : List Event × Nat :=
  if mode = ("fast") then runFastMode o query platforms
  else
    let r := runStreamDeep cfg o query platforms sessionId
    (r.1, r.2.2)

/-- Idea generation for one platform inside `continueAfterApproval`: one
LLM call, fenced-JSON parse with line-splitting fallback, cap to 5 and a
final structural filter. -/
def ideasForPlatform (o : Oracle) (i : Nat) : List String × Nat :=
  let ideasText := o.llm i
  let i := i + 1
  let cleanedText :=
    jsTrim (String.mk (stripFenceEnd (stripFencePlain (stripFenceJson ideasText.data))))
  let ideasList :=
    match o.arrParse cleanedText with
    | .arr parsed => (parsed.map jsTrim).filter (fun (idea : String) => idea.length > 10)
    | .nonArray => []
    | .throwErr =>
        ((((jsSplitNl ideasText).map jsTrim).filter (fun line =>
             line ≠ ("") && !(strStartsWith line ("#")) &&
               !(strStartsWith line ("```")) &&
               line ≠ ("[") && line ≠ ("]") && line ≠ ("\x7b") &&
               line ≠ ("\x7d"))).map jsTrim).filter (fun line => line.length > 10)
  let final := (ideasList.take 5).filter (fun idea =>
    idea ≠ ("") && idea.length > 10 && !(strStartsWith idea ("```")) &&
      idea ≠ ("```json") && idea ≠ ("```"))
  (final, i)

/-- The per-platform loop of `continueAfterApproval`. -/
def continueLoop (o : Oracle) (ideasAcc : IdeasMap) :
    List String → Nat → IdeasMap × List Event
  | [], _ => (ideasAcc, [])
  | platform :: rest, i =>
      let (pl, i') := ideasForPlatform o i
      let ideasAcc' := setKey ideasAcc platform pl
      let (finalMap, evs) := continueLoop o ideasAcc' rest i'
      (finalMap, Event.idea_stream platform pl :: evs)

/-- `continueAfterApproval`: per-platform `idea_stream` events followed by
one `complete` event with the accumulated map. The research text feeds
prompts only. -/
def continueAfterApproval (o : Oracle) (_research : String)
    (platforms : List String) : List Event :=
  let r := continueLoop o [] platforms 0
  r.2 ++ [Event.complete r.1]

/-! ## Action handlers (`agent.ts :: generateIdeas / approveResearch`)

Each handler projects the run's events through `handleStreamEvent` in
emission order and stores the pending approval at the research
checkpoint, exactly as the `for await` loops do. -/

/-- `storePendingApproval` call the handlers make at a research event. -/
def storeFromEvent (db : DB) (sid : String) (p : ResearchPayload)
    (scope : Scope) (platforms : List String) (originalQuery : String)
    (mode : String) (now : Nat) : DB :=
  storePendingApproval db
    { sessionId := sid,
      research := some (jsOr p.research p.research_report),
      researchReport := some (jsOr p.research_report p.research),
      sources := some p.sources, trendingTopics := some p.trending_topics,
      enrichedTrends := some p.enriched_trends,
      confidenceScores := some p.confidence_scores,
      scope := some scope, platforms := platforms,
      originalQuery := originalQuery, mode := some mode } now

/-- The pending-approval storing step at the research checkpoint: only
`research_complete` / `approval_required` events (and only runs that
store, i.e. `store?` set) touch the approval store. -/
def storeStep (sid : String) (now : Nat)
    (store? : Option (Scope × List String × String × String)) (e : Event)
    (db : DB) : DB :=
  match store?, e with
  | some (scope, platforms, originalQuery, mode), .research_complete p =>
      storeFromEvent db sid p scope platforms originalQuery mode now
  | some (scope, platforms, originalQuery, mode), .approval_required _ p =>
      storeFromEvent db sid p scope platforms originalQuery mode now
  | _, _ => db

/-- The `for await` event loop: project each event, and (when `store?` is
set, i.e. for research-producing runs) store the pending approval on
`research_complete` / `approval_required`. `none` models a thrown
projection mutation. -/
def projectRunEvents (ck : Clock) (db : DB) (sid : String)
    (store? : Option (Scope × List String × String × String)) :
    List Event → Option DB
  | [] => some db
  | e :: rest => do
      let db ← handleStreamEvent ck db sid e
      let db := storeStep sid ck.now store? e db
      projectRunEvents ck db sid store? rest

/-- `generateIdeas` (the `startRun` operation): create the session row,
run the engine, project every event, storing the pending approval at the
research checkpoint. -/
def generateIdeasHandler (cfg : Config) (o : Oracle) (ck : Clock) (db : DB)
    (query : String) (platforms : List String) (sessionId : String)
    (mode : Option String) : Option DB :=
  let db := createSession db sessionId query platforms ck.now
  let modeStr := jsOrOpt mode ("deep")
  let events := (runStream cfg o query platforms sessionId false modeStr).1
  projectRunEvents ck db sessionId
    (some (defaultScope, platforms, query, modeStr)) events

/-- The `decide` action's argument union. -/
inductive DecideAction
  | approve
  | refine
  | restart
deriving DecidableEq, Repr

/-- Arguments of `approveResearch`. -/
structure DecideArgs where
  sessionId : String
  action : DecideAction
  refinement : Option String
deriving Repr

/-- The two caller-visible failures of `decide`. -/
inductive DecideErr
  | notFound
  | invalidArgument
deriving DecidableEq, Repr

/-- Result of `approveResearch`: `errored` carries the store exactly as it
stood when the error was thrown; `crashed` models an exception from a
projection mutation inside the event loop. -/
inductive HandlerResult
  | errored (dbAtThrow : DB) (err : DecideErr)
  | completed (db : DB)
  | crashed
deriving DecidableEq, Repr

/-- Wrap the event-loop outcome of a fresh or continued run. -/
def finishRun : Option DB → HandlerResult
  | some d => .completed d
  | none => .crashed

/-- The fresh full-pipeline run that `refine`/`restart` start: the engine
is re-run on `newQuery` and its events projected with pending-approval
storing (`originalQuery` is overwritten with the rewritten query). -/
def startNewRun (cfg : Config) (o : Oracle) (ck : Clock) (db : DB)
    (ad : PendingApproval) (sid : String) (newQuery : String) : Option DB :=
  let mode := jsOrOpt ad.mode ("deep")
  let events := (runStream cfg o newQuery ad.platforms sid true mode).1
  projectRunEvents ck db sid
    (some (ad.scope.getD defaultScope, ad.platforms, newQuery, mode)) events

/-- `approveResearch` (the `decide` operation): read the approval store;
NotFound when absent; `approve` marks the record approved and resumes at
idea generation; `refine` demands non-empty refinement text and starts a
fresh run on the augmented query; `restart` starts a fresh run on the
replacement (or original) query. -/
def approveResearchHandler (cfg : Config) (o : Oracle) (ck : Clock) (db : DB)
    (a : DecideArgs) : HandlerResult :=
  match getPendingApproval db a.sessionId with
  | none => .errored db .notFound
  | some ad =>
    match a.action with
    | .approve =>
        match updatePendingApproval db a.sessionId (some true) none with
        | none => .crashed
        | some db1 =>
            let research := jsOrOpt ad.research (jsOrOpt ad.researchReport (""))
            let events := continueAfterApproval o research ad.platforms
            finishRun (projectRunEvents ck db1 a.sessionId none events)
    | .refine =>
        if jsFalsy a.refinement then .errored db .invalidArgument
        else
          let newQuery := ad.originalQuery ++ ("\n\nRefinement: ") ++
            (a.refinement.getD (""))
          finishRun (startNewRun cfg o ck db ad a.sessionId newQuery)
    | .restart =>
        let newQuery := jsOrOpt a.refinement ad.originalQuery
        finishRun (startNewRun cfg o ck db ad a.sessionId newQuery)

/-! ## Observation helpers -/

/-- The status of a session as a subscriber reads it. -/
def sessionStatusFor (db : DB) (sid : String) : Option Status :=
  (findSession db sid).map (fun s => s.status)

/-- The ideas stored for one platform of one session. -/
def sessionIdeasFor (db : DB) (sid platform : String) :
    Option (Option (List String)) :=
  (findSession db sid).map (fun s => getKey (s.ideas.getD []) platform)

/-- Project a handler result onto the store it committed, if any. -/
def completedDB : HandlerResult → Option DB
  | .completed db => some db
  | _ => none

/-- P1's pairing property: every `research_complete` in the list is
immediately followed by an `approval_required` carrying an identical
research payload. -/
def PairedOk : List Event → Prop
  | [] => True
  | .research_complete p :: rest =>
      (match rest with
       | .approval_required _ q :: _ => p = q
       | _ => False) ∧ PairedOk rest
  | _ :: rest => PairedOk rest

/-- P1's ordering property: no `idea_stream` event occurs before the
first `research_complete` of the list. -/
def NoIdeaBeforeResearch : List Event → Prop
  | [] => True
  | .idea_stream _ _ :: _ => False
  | .research_complete _ :: _ => True
  | _ :: rest => NoIdeaBeforeResearch rest

/-- The research payloads emitted in a run, in order. -/
def researchPayloads (evs : List Event) : List ResearchPayload :=
  evs.filterMap (fun e =>
    match e with
    | .research_complete p => some p
    | _ => none)

/-- The `trend_candidate` events emitted in a run, as (title, source, url). -/
def candidateTriples (evs : List Event) : List (String × String × String) :=
  evs.filterMap (fun e =>
    match e with
    | .trend_candidate t s u => some (t, s, u)
    | _ => none)

/-! ## Spec-side restatement of the confidence-scoring rules (§4.1,
`research_report` stage)

The spec names abstract factors; `renderFactor` fixes their source-level
rendering so the rule set can be compared with `trendConfidence`. -/

/-- The abstract confidence factors named by the spec. -/
inductive SpecFactor
  | highQualitySource
  | highEngagement
  | moderateEngagement
  | multipleEvidence
  | singleEvidence
deriving DecidableEq, Repr

/-- Spec rule: a web-search source contributes the high-quality-source
factor; a community-discussion source contributes high engagement when
its popularity score exceeds 100, else moderate engagement. -/
def specSourceFactors (t : EnrichedTrend) : List SpecFactor :=
  if t.source = ("tavily") then [.highQualitySource]
  else if t.source = ("reddit") then
    if t.score.getD 0 > 100 then [.highEngagement] else [.moderateEngagement]
  else []

/-- Spec rule: evidence count at least 2 contributes the multiple-sources
factor, exactly 1 the single-source factor, 0 nothing. -/
def specEvidenceFactors (t : EnrichedTrend) : List SpecFactor :=
  if t.key_evidence.length ≥ 2 then [.multipleEvidence]
  else if t.key_evidence.length = 1 then [.singleEvidence]
  else []

/-- Spec rule: evidence count at least 2 raises confidence to High,
exactly 1 keeps Medium, 0 drops to Low. -/
def specConfidence (t : EnrichedTrend) : String :=
  if t.key_evidence.length ≥ 2 then ("High")
  else if t.key_evidence.length = 1 then ("Medium")
  else ("Low")

/-- The source-level rendering of each abstract factor. -/
def renderFactor : SpecFactor → String
  | .highQualitySource => ("High-quality web source")
  | .highEngagement => ("High Reddit engagement")
  | .moderateEngagement => ("Moderate Reddit engagement")
  | .multipleEvidence => ("Multiple supporting sources")
  | .singleEvidence => ("Single supporting source")

/-- Spec rule: the rationale is the concatenation of the triggered
factors (with a fixed default when none triggered). -/
def specRationale (t : EnrichedTrend) : String :=
  let fs := (specSourceFactors t ++ specEvidenceFactors t).map renderFactor
  if fs.isEmpty then ("Standard trend analysis")
  else String.intercalate ("; ") fs

/-! ## Concrete fixtures for witnesses and counterexamples -/

/-- A deterministic oracle: the n-th external call answers `Rn`, every
structured-extraction attempt misses, idea parsing throws (so the
line-split fallback runs). -/
def oTest : Oracle :=
  { llm := fun n => ("R") ++ toString n,
    scopeParse := fun _ => .noMatch,
    enrichParse := fun _ => .noMatch,
    fastParse := fun _ => .noMatch,
    arrParse := fun _ => .throwErr,
    tavilyResults := fun _ => [],
    findUrls := fun _ => [],
    nowIso := ("2025-01-01T00:00:00.000Z"),
    yesterdayIso := ("2024-12-31T00:00:00.000Z") }

/-- No credentials configured: both adapters simulate. -/
def cfgNone : Config :=
  { tavilyConfigured := false, composioKeyConfigured := false,
    composioUserConfigured := false }

/-- A fixed clock. -/
def ckTest : Clock :=
  { now := 100, nowIso := ("2025-01-01T00:00:00.000Z"),
    localeDate := fun s => s }

/-- A bare session row `s1` in a given status. -/
def sessionTest (st : Status) : Session :=
  { sessionId := ("s1"), query := ("q"), platforms := [("LinkedIn")],
    research := none, sources := none, trendingTopics := none, ideas := none,
    status := st, createdAt := 1, updatedAt := 1 }

/-- A store holding exactly one session. -/
def dbWith (s : Session) : DB :=
  { sessions := [s], messages := [], pendingApprovals := [] }

/-- The empty store. -/
def dbEmpty : DB := { sessions := [], messages := [], pendingApprovals := [] }

/-- A minimal research payload. -/
def pEmpty : ResearchPayload :=
  { research := ("r"), research_report := ("r"), sources := [],
    trending_topics := [], enriched_trends := [], confidence_scores := [] }

/-- A pending approval for `s1` with original query `q`. -/
def paTest : PendingApproval :=
  { sessionId := ("s1"), research := some ("r"), researchReport := some ("r"),
    sources := some [], trendingTopics := some [], enrichedTrends := some [],
    confidenceScores := some [], scope := some defaultScope,
    platforms := [("LinkedIn")], originalQuery := ("q"), mode := some ("deep"),
    approved := some false, needsRefinement := some false, createdAt := 1 }

/-- Store with a waiting session and its pending approval. -/
def dbApproval : DB :=
  { sessions := [sessionTest .waiting_approval], messages := [],
    pendingApprovals := [paTest] }

/-- `decide("s1","refine","focus on enterprise buyers")`. -/
def argsRefine : DecideArgs :=
  { sessionId := ("s1"), action := .refine,
    refinement := some ("focus on enterprise buyers") }

/-- `decide("s1","restart","q2")`. -/
def argsRestart : DecideArgs :=
  { sessionId := ("s1"), action := .restart, refinement := some ("q2") }

/-- A fully-populated session used by the reset witness. -/
def c9sess : Session :=
  { sessionId := ("s1"), query := ("q"), platforms := [("LinkedIn")],
    research := some ("rep"), sources := some [("u1")],
    trendingTopics := some [{
      topic := ("t"), reason := ("r"), url := ("u"),
      timestamp := ("ts"), confidence := ("High") }],
    ideas := some [(("LinkedIn"), [("idea one is long enough")])],
    status := .complete, createdAt := 3, updatedAt := 9 }

/-- Store holding the populated session. -/
def c9db : DB := dbWith c9sess

/-- The store after one projected `idea_stream` event (witness fixture). -/
def c3run : DB :=
  (handleStreamEvent ckTest (dbWith (sessionTest .generating)) ("s1")
    (.idea_stream ("LinkedIn") [("this is a sufficiently long idea")])).getD
    (dbWith (sessionTest .generating))

/-- The store after one full deep-mode `startRun` on the empty store
(witness fixture). -/
def c10runDB : DB :=
  (generateIdeasHandler cfgNone oTest ckTest dbEmpty ("q") [("LinkedIn")]
    ("s1") none).getD dbEmpty

/-- The store after an `idea_stream` event projected onto a completed
session (witness fixture). -/
def c2streamDB : DB :=
  (handleStreamEvent ckTest (dbWith (sessionTest .complete)) ("s1")
    (.idea_stream ("X") [("this idea is certainly long enough")])).getD
    (dbWith (sessionTest .complete))

/-! ## Helper lemmas -/

/-- Assigning a key then reading it back yields the assigned value. -/
theorem getKey_setKey (m : IdeasMap) (k : String) (v : List String) :
    getKey (setKey m k v) k = some v := by
  induction m with
  | nil => simp [setKey, getKey, List.find?]
  | cons p rest ih =>
      by_cases h : p.1 = k
      · simp [setKey, h, getKey, List.find?]
      · simpa [setKey, h, getKey, List.find?] using ih

/-- Patching the first row matching `sid` commutes with `find?` for the
same id, provided the patch preserves the id. -/
theorem find_patchFirstSession (l : List Session) (sid : String)
    (f : Session → Session) (hf : ∀ s, (f s).sessionId = s.sessionId) :
    (patchFirstSession l sid f).find? (fun s => s.sessionId = sid)
      = (l.find? (fun s => s.sessionId = sid)).map f := by
  induction l with
  | nil => rfl
  | cons s rest ih =>
      by_cases h : s.sessionId = sid
      · simp [patchFirstSession, h, List.find?, hf s]
      · simp [patchFirstSession, h, List.find?, ih]

/-- `findSession` over a store whose sessions were patched. -/
theorem findSession_patch (db : DB) (l : List MessageRec)
    (pa : List PendingApproval) (sid : String) (f : Session → Session)
    (hf : ∀ s, (f s).sessionId = s.sessionId) :
    findSession { sessions := patchFirstSession db.sessions sid f,
                  messages := l, pendingApprovals := pa } sid
      = (findSession db sid).map f := by
  simpa [findSession] using find_patchFirstSession db.sessions sid f hf

/-- Appending to the message log does not change session lookup. -/
theorem findSession_addMessage (db : DB) (sid mid mtype content : String)
    (platform : Option String) (ideas : Option (List String)) (now : Nat) :
    findSession (addMessage db mid mtype content platform ideas now) sid
      = findSession db sid := rfl

/-- Characterization of the projector's `idea_stream` branch: one log
entry is appended, and the first session row matching the id gets its
platform entry fully replaced by the sanitized ideas; status is not
touched. -/
theorem handleStreamEvent_idea_stream (ck : Clock) (db : DB) (sid p : String)
    (raw : List String) :
    handleStreamEvent ck db sid (.idea_stream p raw) =
      match findSession db sid with
      | none => none
      | some _ =>
          some { sessions := patchFirstSession db.sessions sid (fun s =>
                   { s with
                     ideas := some (setKey (s.ideas.getD []) p (sanitizeIdeaStream raw)),
                     updatedAt := ck.now }),
                 messages := db.messages ++
                   [{ sessionId := sid, mtype := ("idea"),
                      content := ("Generated ") ++ toString raw.length ++
                        (" ideas for ") ++ p,
                      platform := some p, ideas := some raw,
                      timestamp := ck.now }],
                 pendingApprovals := db.pendingApprovals } := by
  simp only [handleStreamEvent]
  rw [findSession_addMessage db sid sid ("idea")
    (("Generated ") ++ toString raw.length ++ (" ideas for ") ++ p)
    (some p) (some raw) ck.now]
  cases hfind : findSession db sid with
  | none => rfl
  | some s => rfl

/-! ## Claims -/

/-- Claim C8, counterexample: the `complete`-event sanitization does not
map the raw string to `"Idea A"`: the cleaned string is `"Idea A"`, but
the 10-character floor of the `complete` path then filters it out, so the
pipeline output is empty. -/
theorem c8_counterexample :
    sanitizeComplete [("```json\n[\"Idea A\",\n")] = [] ∧
      cleanIdeaComplete ("```json\n[\"Idea A\",\n") = ("Idea A") := by
  exact ⟨by rfl, by rfl⟩

/-- Claim C8, amended: in the `idea_stream` path the raw string
`"```json\n[\"Idea A\",\n"` sanitizes to `"Idea A"` and `","` is dropped
by the structure guard; in the `complete` path the cleanup also yields
`"Idea A"`, but the 10-character length floor then filters it out (and
`","` is dropped there too), so the complete-path output is empty. -/
theorem c8_sanitization :
    sanitizeIdeaStream [("```json\n[\"Idea A\",\n"), (",")] = [("Idea A")] ∧
      cleanIdeaStream ("```json\n[\"Idea A\",\n") = ("Idea A") ∧
      cleanIdeaComplete ("```json\n[\"Idea A\",\n") = ("Idea A") ∧
      sanitizeComplete [("```json\n[\"Idea A\",\n"), (",")] = [] := by
  exact ⟨by rfl, by rfl, by rfl, by rfl⟩

/-- Claim C2, counterexample: a `research_complete` event projected while
the session is already `complete` (a non-restart update) moves status
backward to `waiting_approval`; it is not dropped. -/
theorem c2_counterexample :
    ((handleStreamEvent ckTest (dbWith (sessionTest .complete)) ("s1")
        (.research_complete pEmpty)).map (fun db => sessionStatusFor db ("s1")))
      = some (some .waiting_approval) ∧
      statusRank .waiting_approval < statusRank .complete := by
  exact ⟨by rfl, by decide⟩

/-- Claim C2, amended: the never-leave-`complete` guard exists only on the
idea-update path: `updateIdeas` keeps a `complete` status regardless of the
status it is asked to set, and the `idea_stream` projection never changes
status at all; `updateSession` (used by the research projections) applies
any supplied status unconditionally. -/
theorem c2_status_guard :
    (∀ db sid platform ideas status now,
      sessionStatusFor db sid = some .complete →
      (updateIdeas db sid platform ideas status now).map
        (fun db' => sessionStatusFor db' sid) = some (some .complete)) ∧
    (∀ ck db sid p raw db',
      handleStreamEvent ck db sid (.idea_stream p raw) = some db' →
      sessionStatusFor db' sid = sessionStatusFor db sid) := by
  constructor
  · intro db sid platform ideas status now h
    obtain ⟨s, hfind, hst⟩ : ∃ s, findSession db sid = some s ∧ s.status = .complete := by
      cases hfind : findSession db sid with
      | none => simp [sessionStatusFor, hfind] at h
      | some s => exact ⟨s, rfl, by simpa [sessionStatusFor, hfind] using h⟩
    unfold updateIdeas
    rw [hfind]
    dsimp only
    simp only [Option.map_some']
    unfold sessionStatusFor
    rw [findSession_patch db db.messages db.pendingApprovals sid
      (fun s =>
        { s with
          ideas := some (setKey (s.ideas.getD []) platform ideas),
          status :=
            match status with
            | some st => if s.status ≠ Status.complete then st else s.status
            | none => s.status,
          updatedAt := now })
      (fun _ => rfl)]
    rw [hfind]
    simp only [Option.map_some', Option.some.injEq]
    cases status with
    | none => simpa using hst
    | some st => simp [hst]
  · intro ck db sid p raw db' h
    rw [handleStreamEvent_idea_stream] at h
    cases hfind : findSession db sid with
    | none => rw [hfind] at h; exact absurd h (by simp)
    | some s =>
        rw [hfind] at h
        dsimp only at h
        injection h with h'
        subst h'
        unfold sessionStatusFor
        rw [findSession_patch db
          (db.messages ++
            [({ sessionId := sid, mtype := ("idea"),
                content := ("Generated ") ++ toString raw.length ++
                  (" ideas for ") ++ p,
                platform := some p, ideas := some raw,
                timestamp := ck.now } : MessageRec)])
          db.pendingApprovals sid
          (fun s =>
            { s with
              ideas := some (setKey (s.ideas.getD []) p (sanitizeIdeaStream raw)),
              updatedAt := ck.now })
          (fun _ => rfl)]
        rw [hfind]
        rfl

/-- Witness for C2's amended theorem at a concrete completed session. -/
theorem c2_witness :
    sessionStatusFor (dbWith (sessionTest .complete)) ("s1") = some .complete ∧
    (updateIdeas (dbWith (sessionTest .complete)) ("s1") ("X") [("an idea")]
      (some .generating) 5).map (fun db' => sessionStatusFor db' ("s1"))
      = some (some .complete) ∧
    handleStreamEvent ckTest (dbWith (sessionTest .complete)) ("s1")
      (.idea_stream ("X") [("this idea is certainly long enough")])
      = some c2streamDB ∧
    sessionStatusFor c2streamDB ("s1")
      = sessionStatusFor (dbWith (sessionTest .complete)) ("s1") :=
  ⟨rfl, c2_status_guard.1 (dbWith (sessionTest .complete)) ("s1") ("X")
      [("an idea")] (some .generating) 5 rfl,
   rfl, c2_status_guard.2 ckTest (dbWith (sessionTest .complete)) ("s1") ("X")
      [("this idea is certainly long enough")] c2streamDB rfl⟩

/-- Claim C9: `resetSession` clears research, sources, trendingTopics and
ideas, returns status to `researching` regardless of the prior status,
preserves identity (`sessionId`, `createdAt`), and keeps the query unless
a non-empty replacement is supplied. -/
theorem c9_reset :
    ∀ db sid q now s, findSession db sid = some s →
      ((resetSession db sid q now).map (fun db' => findSession db' sid) =
        some (some { s with
          query := jsOrOpt q s.query, research := none, sources := none,
          trendingTopics := none, ideas := none, status := .researching,
          updatedAt := now })) ∧
      (q = none → jsOrOpt q s.query = s.query) ∧
      (∀ qq, q = some qq → qq ≠ ("") → jsOrOpt q s.query = qq) := by
  intro db sid q now s hfind
  refine ⟨?_, ?_, ?_⟩
  · unfold resetSession
    rw [hfind]
    dsimp only
    simp only [Option.map_some', Option.some.injEq]
    rw [findSession_patch db db.messages db.pendingApprovals sid
      (fun s =>
        { s with
          query := jsOrOpt q s.query, research := none, sources := none,
          trendingTopics := none, ideas := none, status := .researching,
          updatedAt := now })
      (fun _ => rfl)]
    rw [hfind]
    rfl
  · intro hq; subst hq; rfl
  · intro qq hq hne
    subst hq
    simp [jsOrOpt, jsOr, hne]

/-- Witness for C9 at a fully-populated completed session with a
non-empty replacement query. -/
theorem c9_witness :
    findSession c9db ("s1") = some c9sess ∧
    ((resetSession c9db ("s1") (some ("new q")) 7).map
      (fun db' => findSession db' ("s1")) =
      some (some { c9sess with
        query := jsOrOpt (some ("new q")) c9sess.query, research := none,
        sources := none, trendingTopics := none, ideas := none,
        status := .researching, updatedAt := 7 })) :=
  ⟨rfl, (c9_reset c9db ("s1") (some ("new q")) 7 c9sess rfl).1⟩

/-- Claim C4, counterexample: after `decide("s1","refine","focus on
enterprise buyers")` the stored original query of the new run is the old
query joined with TWO newlines before `Refinement:`, not the single
newline the claim states. -/
theorem c4_counterexample :
    ((completedDB (approveResearchHandler cfgNone oTest ckTest dbApproval
        argsRefine)).bind
      (fun db' => (getPendingApproval db' ("s1")).map
        (fun pa => pa.originalQuery)))
      = some ("q\n\nRefinement: focus on enterprise buyers") ∧
    ("q\n\nRefinement: focus on enterprise buyers") ≠
      (("q") ++ ("\nRefinement: ") ++ ("focus on enterprise buyers")) := by
  exact ⟨by rfl, by decide⟩

/-- Claim C4, amended: `refine` with non-empty text starts a new run whose
query is `originalQuery ++ "\n\nRefinement: " ++ refinement` (two
newlines); `restart` starts a new run on the supplied replacement query,
falling back to the stored original query when the replacement is absent
or empty. -/
theorem c4_rewritten_query :
    (∀ cfg o ck db a ad r,
      getPendingApproval db a.sessionId = some ad →
      a.action = .refine → a.refinement = some r → r ≠ ("") →
      approveResearchHandler cfg o ck db a =
        finishRun (startNewRun cfg o ck db ad a.sessionId
          (ad.originalQuery ++ ("\n\nRefinement: ") ++ r))) ∧
    (∀ cfg o ck db a ad,
      getPendingApproval db a.sessionId = some ad →
      a.action = .restart →
      approveResearchHandler cfg o ck db a =
        finishRun (startNewRun cfg o ck db ad a.sessionId
          (jsOrOpt a.refinement ad.originalQuery))) := by
  constructor
  · intro cfg o ck db a ad r hpa ha href hr
    unfold approveResearchHandler
    rw [hpa, ha, href]
    simp [jsFalsy, hr]
  · intro cfg o ck db a ad hpa ha
    unfold approveResearchHandler
    rw [hpa, ha]

/-- Witness for C4's amended theorem: the concrete refine and restart
decisions on the stored approval for `s1`. -/
theorem c4_witness :
    getPendingApproval dbApproval ("s1") = some paTest ∧
    approveResearchHandler cfgNone oTest ckTest dbApproval argsRefine =
      finishRun (startNewRun cfgNone oTest ckTest dbApproval paTest ("s1")
        (paTest.originalQuery ++ ("\n\nRefinement: ") ++
          ("focus on enterprise buyers"))) ∧
    approveResearchHandler cfgNone oTest ckTest dbApproval argsRestart =
      finishRun (startNewRun cfgNone oTest ckTest dbApproval paTest ("s1")
        (jsOrOpt (some ("q2")) paTest.originalQuery)) :=
  ⟨rfl,
   c4_rewritten_query.1 cfgNone oTest ckTest dbApproval argsRefine paTest
     ("focus on enterprise buyers") rfl rfl rfl (by decide),
   c4_rewritten_query.2 cfgNone oTest ckTest dbApproval argsRestart paTest
     rfl rfl⟩

/-- Claim C5: `decide` fails with NotFound when no pending approval
exists for the session, and with InvalidArgument when `refine` is issued
without (non-empty) refinement text; in both cases the handler errors out
with the store exactly as it was (no session, message, or approval-store
mutation precedes the failure). -/
theorem c5_decide_failures :
    (∀ cfg o ck db a, getPendingApproval db a.sessionId = none →
      approveResearchHandler cfg o ck db a = .errored db .notFound) ∧
    (∀ cfg o ck db a ad, getPendingApproval db a.sessionId = some ad →
      a.action = .refine → jsFalsy a.refinement = true →
      approveResearchHandler cfg o ck db a = .errored db .invalidArgument) := by
  constructor
  · intro cfg o ck db a h
    unfold approveResearchHandler
    rw [h]
  · intro cfg o ck db a ad h ha hf
    unfold approveResearchHandler
    rw [h, ha, hf]
    rfl

/-- Witness for C5: a missing approval record (`s2`) and a refine without
text on the stored approval for `s1`. -/
theorem c5_witness :
    getPendingApproval dbEmpty ("s2") = none ∧
    approveResearchHandler cfgNone oTest ckTest dbEmpty
      { sessionId := ("s2"), action := .approve, refinement := none }
      = .errored dbEmpty .notFound ∧
    getPendingApproval dbApproval ("s1") = some paTest ∧
    jsFalsy (none : Option String) = true ∧
    approveResearchHandler cfgNone oTest ckTest dbApproval
      { sessionId := ("s1"), action := .refine, refinement := none }
      = .errored dbApproval .invalidArgument :=
  ⟨rfl,
   c5_decide_failures.1 cfgNone oTest ckTest dbEmpty
     { sessionId := ("s2"), action := .approve, refinement := none } rfl,
   rfl, rfl,
   c5_decide_failures.2 cfgNone oTest ckTest dbApproval
     { sessionId := ("s1"), action := .refine, refinement := none } paTest
     rfl rfl rfl⟩

/-- A successfully projected `idea_stream` event leaves the platform's
stored array equal to the sanitized event payload, independent of what
was stored before (replace, not append). -/
theorem ideaStream_replaces (ck : Clock) (db : DB) (sid p : String)
    (raw : List String) (db' : DB)
    (h : handleStreamEvent ck db sid (.idea_stream p raw) = some db') :
    sessionIdeasFor db' sid p = some (some (sanitizeIdeaStream raw)) := by
  rw [handleStreamEvent_idea_stream] at h
  cases hfind : findSession db sid with
  | none => rw [hfind] at h; exact absurd h (by simp)
  | some s =>
      rw [hfind] at h
      dsimp only at h
      injection h with h'
      subst h'
      unfold sessionIdeasFor
      rw [findSession_patch db
        (db.messages ++
          [({ sessionId := sid, mtype := ("idea"),
              content := ("Generated ") ++ toString raw.length ++
                (" ideas for ") ++ p,
              platform := some p, ideas := some raw,
              timestamp := ck.now } : MessageRec)])
        db.pendingApprovals sid
        (fun s =>
          { s with
            ideas := some (setKey (s.ideas.getD []) p (sanitizeIdeaStream raw)),
            updatedAt := ck.now })
        (fun _ => rfl)]
      rw [hfind]
      simp [getKey_setKey]

/-- Claim C3: applying the same `idea_stream` event twice yields the same
final `ideas[P]` as applying it once, because the merge fully replaces
platform P's array with the sanitized event payload. -/
theorem c3_idea_merge_idempotent :
    (∀ ck1 ck2 db sid p raw,
      ((handleStreamEvent ck1 db sid (.idea_stream p raw)).bind
        (fun db1 => handleStreamEvent ck2 db1 sid (.idea_stream p raw))).map
        (fun db2 => sessionIdeasFor db2 sid p)
      = (handleStreamEvent ck1 db sid (.idea_stream p raw)).map
        (fun db1 => sessionIdeasFor db1 sid p)) ∧
    (∀ ck db sid p raw db',
      handleStreamEvent ck db sid (.idea_stream p raw) = some db' →
      sessionIdeasFor db' sid p = some (some (sanitizeIdeaStream raw))) := by
  constructor
  · intro ck1 ck2 db sid p raw
    cases h1 : handleStreamEvent ck1 db sid (.idea_stream p raw) with
    | none => rfl
    | some db1 =>
        have hv1 := ideaStream_replaces ck1 db sid p raw db1 h1
        cases h2 : handleStreamEvent ck2 db1 sid (.idea_stream p raw) with
        | none =>
            exfalso
            obtain ⟨s1, hs1⟩ : ∃ s1, findSession db1 sid = some s1 := by
              unfold sessionIdeasFor at hv1
              cases hf : findSession db1 sid with
              | none => rw [hf] at hv1; simp at hv1
              | some s1 => exact ⟨s1, rfl⟩
            rw [handleStreamEvent_idea_stream, hs1] at h2
            simp at h2
        | some db2 =>
            have hv2 := ideaStream_replaces ck2 db1 sid p raw db2 h2
            simp only [h1, Option.some_bind]
            rw [h2]
            simp only [Option.map_some']
            rw [hv1, hv2]
  · exact ideaStream_replaces

/-- Witness for C3's replace semantics at a concrete session. -/
theorem c3_witness :
    handleStreamEvent ckTest (dbWith (sessionTest .generating)) ("s1")
      (.idea_stream ("LinkedIn") [("this is a sufficiently long idea")])
      = some c3run ∧
    sessionIdeasFor c3run ("s1") ("LinkedIn")
      = some (some (sanitizeIdeaStream [("this is a sufficiently long idea")])) :=
  ⟨rfl,
   c3_idea_merge_idempotent.2 ckTest (dbWith (sessionTest .generating)) ("s1")
     ("LinkedIn") [("this is a sufficiently long idea")] c3run rfl⟩

/-- Claim C7: deep mode's research_report stage scores the (at most 10)
top enriched trends by the fixed rules; each trend's confidence record
coincides with the spec-side rule set: web-search contributes the
high-quality-source factor, community discussion the high/moderate
engagement factor by the 100-score threshold, the evidence count sets
High/Medium/Low, and the rationale concatenates the triggered factors. -/
theorem c7_confidence_rules :
    (∀ cfg o s i, ((researchReportNode cfg o s i).1).confidenceScores
        = confidenceScoresFor (s.enrichedTrends.take 10)) ∧
    (∀ t, trendConfidence t
        = { confidence := specConfidence t, rationale := specRationale t }) := by
  constructor
  · intro cfg o s i; rfl
  · intro t
    unfold trendConfidence specConfidence specRationale specSourceFactors
      specEvidenceFactors renderFactor
    by_cases h1 : t.source = ("tavily") <;>
      by_cases h2 : t.source = ("reddit") <;>
        by_cases h5 : t.score.getD 0 > 100 <;>
          by_cases h3 : 2 ≤ t.key_evidence.length <;>
            by_cases h4 : t.key_evidence.length = 1 <;>
              (try simp [h1, h2, h5, h3, h4, jsOr]) <;> (try decide)

/-- Non-research events at the head do not affect the pairing property. -/
theorem pairedOk_cons_step (a b : String) (rest : List Event) :
    PairedOk (.step a b :: rest) ↔ PairedOk rest := Iff.rfl

/-- Plan-completion events at the head do not affect pairing. -/
theorem pairedOk_cons_rpc (sc : Scope) (tl : List String) (m : String)
    (rest : List Event) :
    PairedOk (.research_plan_complete sc tl m :: rest) ↔ PairedOk rest := Iff.rfl

/-- Retrieval-completion events at the head do not affect pairing. -/
theorem pairedOk_cons_trc (a b : Nat) (etr : Option (List EnrichedTrend))
    (m : String) (rest : List Event) :
    PairedOk (.trend_retrieval_complete a b etr m :: rest) ↔ PairedOk rest :=
  Iff.rfl

/-- Candidate events do not affect the pairing property. -/
theorem pairedOk_cands (cs : List Candidate) (rest : List Event) :
    PairedOk (cs.map (fun c => Event.trend_candidate c.title c.source c.url)
      ++ rest) ↔ PairedOk rest := by
  induction cs with
  | nil => exact Iff.rfl
  | cons c cs ih => exact ih

/-- Step events at the head do not affect the no-idea-before-research
property. -/
theorem noIdea_cons_step (a b : String) (rest : List Event) :
    NoIdeaBeforeResearch (.step a b :: rest) ↔ NoIdeaBeforeResearch rest :=
  Iff.rfl

/-- Plan-completion events do not affect the property. -/
theorem noIdea_cons_rpc (sc : Scope) (tl : List String) (m : String)
    (rest : List Event) :
    NoIdeaBeforeResearch (.research_plan_complete sc tl m :: rest) ↔
      NoIdeaBeforeResearch rest := Iff.rfl

/-- Retrieval-completion events do not affect the property. -/
theorem noIdea_cons_trc (a b : Nat) (etr : Option (List EnrichedTrend))
    (m : String) (rest : List Event) :
    NoIdeaBeforeResearch (.trend_retrieval_complete a b etr m :: rest) ↔
      NoIdeaBeforeResearch rest := Iff.rfl

/-- Candidate events do not affect the property. -/
theorem noIdea_cands (cs : List Candidate) (rest : List Event) :
    NoIdeaBeforeResearch
      (cs.map (fun c => Event.trend_candidate c.title c.source c.url) ++ rest) ↔
      NoIdeaBeforeResearch rest := by
  induction cs with
  | nil => exact Iff.rfl
  | cons c cs ih => exact ih

/-- Claim C1: for every single engine run (fast mode, deep mode, and the
refinement/restart reruns, which are the same `runStream`), every emitted
`research_complete` is immediately followed by an `approval_required`
with an identical research payload, and no `idea_stream` event occurs
before that pair. -/
theorem c1_run_event_pairing :
    ∀ cfg o q ps sid isRef mode,
      PairedOk (runStream cfg o q ps sid isRef mode).1 ∧
      NoIdeaBeforeResearch (runStream cfg o q ps sid isRef mode).1 := by
  intro cfg o q ps sid isRef mode
  unfold runStream
  by_cases hm : mode = ("fast")
  · rw [if_pos hm]
    exact ⟨⟨rfl, trivial⟩, trivial⟩
  · rw [if_neg hm]
    unfold runStreamDeep
    dsimp only
    constructor
    · simp only [List.append_assoc, List.cons_append, List.nil_append,
        pairedOk_cons_step, pairedOk_cons_rpc]
      rw [pairedOk_cands]
      simp only [pairedOk_cons_trc, pairedOk_cons_step]
      exact ⟨rfl, trivial⟩
    · simp only [List.append_assoc, List.cons_append, List.nil_append,
        noIdea_cons_step, noIdea_cons_rpc]
      rw [noIdea_cands]
      simp only [noIdea_cons_trc, noIdea_cons_step]
      trivial

/-- Candidate events carry no research payload. -/
theorem researchPayloads_cands (cs : List Candidate) (rest : List Event) :
    researchPayloads
      (cs.map (fun c => Event.trend_candidate c.title c.source c.url) ++ rest)
      = researchPayloads rest := by
  induction cs with
  | nil => rfl
  | cons c cs ih => exact ih

/-- Step events carry no research payload. -/
theorem researchPayloads_cons_step (a b : String) (rest : List Event) :
    researchPayloads (.step a b :: rest) = researchPayloads rest := rfl

/-- Plan-completion events carry no research payload. -/
theorem researchPayloads_cons_rpc (sc : Scope) (tl : List String) (m : String)
    (rest : List Event) :
    researchPayloads (.research_plan_complete sc tl m :: rest)
      = researchPayloads rest := rfl

/-- Retrieval-completion events carry no research payload. -/
theorem researchPayloads_cons_trc (a b : Nat)
    (etr : Option (List EnrichedTrend)) (m : String) (rest : List Event) :
    researchPayloads (.trend_retrieval_complete a b etr m :: rest)
      = researchPayloads rest := rfl

/-- A `research_complete` event contributes its payload. -/
theorem researchPayloads_cons_rc (p : ResearchPayload) (rest : List Event) :
    researchPayloads (.research_complete p :: rest)
      = p :: researchPayloads rest := rfl

/-- Mapping candidates to events and extracting the triples back is the
identity (plus the tail's triples). -/
theorem candidateTriples_cands (cs : List Candidate) (rest : List Event) :
    candidateTriples
      (cs.map (fun c => Event.trend_candidate c.title c.source c.url) ++ rest)
      = cs.map (fun c => (c.title, c.source, c.url)) ++ candidateTriples rest := by
  induction cs with
  | nil => rfl
  | cons c cs ih => exact congrArg (List.cons (c.title, c.source, c.url)) ih

/-- Step events contribute no candidate triple. -/
theorem candidateTriples_cons_step (a b : String) (rest : List Event) :
    candidateTriples (.step a b :: rest) = candidateTriples rest := rfl

/-- Plan-completion events contribute no candidate triple. -/
theorem candidateTriples_cons_rpc (sc : Scope) (tl : List String) (m : String)
    (rest : List Event) :
    candidateTriples (.research_plan_complete sc tl m :: rest)
      = candidateTriples rest := rfl

/-- Retrieval-completion events contribute no candidate triple. -/
theorem candidateTriples_cons_trc (a b : Nat)
    (etr : Option (List EnrichedTrend)) (m : String) (rest : List Event) :
    candidateTriples (.trend_retrieval_complete a b etr m :: rest)
      = candidateTriples rest := rfl

/-- Research events contribute no candidate triple. -/
theorem candidateTriples_cons_rc (p : ResearchPayload) (rest : List Event) :
    candidateTriples (.research_complete p :: rest) = candidateTriples rest := rfl

/-- Approval events contribute no candidate triple. -/
theorem candidateTriples_cons_ar (m : String) (p : ResearchPayload)
    (rest : List Event) :
    candidateTriples (.approval_required m p :: rest) = candidateTriples rest := rfl

/-- Claim C6: one deep-mode `runStream` executes the three research
stages twice — once step-by-step (feeding the progress events) and then a
second full time through the graph executor's `invoke` over the
already-updated state. The final state and external-call counter equal
`graphInvoke` applied twice from the initial state; the emitted
`research_complete` payload is the second execution's result, while the
`trend_candidate` events come from the first pass. Concretely (no
credentials, indexed LLM oracle): the emitted report is the 8th external
call's response `R7`, not the first pass's `R3`, and one run makes 8
external calls (2 x 4). -/
theorem c6_deep_double_execution :
    (∀ cfg o q ps sid,
      ((runStreamDeep cfg o q ps sid).2 =
        graphInvoke cfg o
          (graphInvoke cfg o (initialAgentState q ps sid) 0).1
          (graphInvoke cfg o (initialAgentState q ps sid) 0).2) ∧
      (researchPayloads (runStreamDeep cfg o q ps sid).1 =
        [payloadOf (graphInvoke cfg o
          (graphInvoke cfg o (initialAgentState q ps sid) 0).1
          (graphInvoke cfg o (initialAgentState q ps sid) 0).2).1]) ∧
      (candidateTriples (runStreamDeep cfg o q ps sid).1 =
        ((trendRetrievalNode cfg o
            (researchPlanNode cfg o (initialAgentState q ps sid) 0).1
            (researchPlanNode cfg o (initialAgentState q ps sid) 0).2).1).trendCandidates.map
          (fun c => (c.title, c.source, c.url)))) ∧
    (((runStreamDeep cfgNone oTest ("q") [("x")] ("s")).2.1).research = ("R7") ∧
      ((graphInvoke cfgNone oTest (initialAgentState ("q") [("x")] ("s")) 0).1).research
        = ("R3") ∧
      (("R7") : String) ≠ ("R3") ∧
      (runStreamDeep cfgNone oTest ("q") [("x")] ("s")).2.2 = 8) := by
  constructor
  · intro cfg o q ps sid
    refine ⟨rfl, ?_, ?_⟩
    · unfold runStreamDeep
      dsimp only
      simp only [List.append_assoc, List.cons_append, List.nil_append,
        researchPayloads_cons_step, researchPayloads_cons_rpc]
      rw [researchPayloads_cands]
      simp only [researchPayloads_cons_trc, researchPayloads_cons_step,
        researchPayloads_cons_rc]
      rfl
    · unfold runStreamDeep
      dsimp only
      simp only [List.append_assoc, List.cons_append, List.nil_append,
        candidateTriples_cons_step, candidateTriples_cons_rpc]
      rw [candidateTriples_cands]
      simp only [candidateTriples_cons_trc, candidateTriples_cons_step,
        candidateTriples_cons_rc, candidateTriples_cons_ar]
      exact List.append_nil _
  · exact ⟨rfl, rfl, by decide, rfl⟩

/-! ## Session-record counting (claim C10) -/

/-- The number of session rows stored for a given id. -/
def sessionCount (db : DB) (sid : String) : Nat :=
  (db.sessions.filter (fun s => s.sessionId = sid)).length

/-- Patching the first row for one id never changes how many rows any id
has, provided the patch preserves ids. -/
theorem filterSid_patchFirst (l : List Session) (sid sid2 : String)
    (f : Session → Session) (hf : ∀ s, (f s).sessionId = s.sessionId) :
    ((patchFirstSession l sid f).filter (fun s => s.sessionId = sid2)).length
      = (l.filter (fun s => s.sessionId = sid2)).length := by
  induction l with
  | nil => rfl
  | cons s rest ih =>
      unfold patchFirstSession
      by_cases h : s.sessionId = sid
      · rw [if_pos h]
        by_cases h2 : s.sessionId = sid2 <;> simp [List.filter, hf s, h2]
      · rw [if_neg h]
        by_cases h2 : s.sessionId = sid2 <;> simp [List.filter, h2, ih]

/-- `updateSession` patches in place: it never changes the number of
session rows. -/
theorem updateSession_count (db : DB) (a : UpdateSessionArgs) (now : Nat)
    (db' : DB) (h : updateSession db a now = some db') (sid2 : String) :
    sessionCount db' sid2 = sessionCount db sid2 := by
  unfold updateSession at h
  cases hfind : findSession db a.sessionId with
  | none => rw [hfind] at h; exact absurd h (by simp)
  | some s =>
      rw [hfind] at h
      injection h with h'
      subst h'
      exact filterSid_patchFirst db.sessions a.sessionId sid2 _ (fun _ => rfl)

/-- Storing a pending approval never touches session rows. -/
theorem storePendingApproval_count (db : DB) (a : StoreApprovalArgs)
    (now : Nat) (sid2 : String) :
    sessionCount (storePendingApproval db a now) sid2 = sessionCount db sid2 := by
  unfold storePendingApproval
  cases hf : db.pendingApprovals.find? (fun p => p.sessionId = a.sessionId) with
  | none => rfl
  | some p => rfl

/-- The research-checkpoint storing step never touches session rows. -/
theorem storeStep_count (sid : String) (now : Nat)
    (store? : Option (Scope × List String × String × String)) (e : Event)
    (db : DB) (sid2 : String) :
    sessionCount (storeStep sid now store? e db) sid2 = sessionCount db sid2 := by
  cases store? with
  | none => cases e <;> rfl
  | some q =>
      obtain ⟨sc, pls, oq, md⟩ := q
      cases e <;>
        first
        | rfl
        | exact storePendingApproval_count db _ now sid2

/-- One projected event never changes the number of session rows for any
id: every session mutation in the projector patches the first matching
row in place. -/
theorem handleStreamEvent_count (ck : Clock) (db : DB) (sid : String)
    (e : Event) (db' : DB) (h : handleStreamEvent ck db sid e = some db')
    (sid2 : String) : sessionCount db' sid2 = sessionCount db sid2 := by
  cases e with
  | research_plan_complete sc tl m =>
      simp only [handleStreamEvent] at h
      injection h with h'; subst h'; rfl
  | researchPartialEvt =>
      simp only [handleStreamEvent] at h
      injection h with h'; subst h'; rfl
  | researchReportPartialEvt =>
      simp only [handleStreamEvent] at h
      injection h with h'; subst h'; rfl
  | step a m =>
      simp only [handleStreamEvent] at h
      injection h with h'; subst h'; rfl
  | trend_candidate title source url =>
      simp only [handleStreamEvent] at h
      cases hfind : findSession db sid with
      | none => rw [hfind] at h; injection h with h'; subst h'; rfl
      | some sess =>
          rw [hfind] at h
          dsimp only at h
          split at h
          · injection h with h'; subst h'; rfl
          · obtain ⟨db1, h1, h⟩ := Option.bind_eq_some.mp h
            obtain ⟨db2, h2, h⟩ := Option.bind_eq_some.mp h
            injection h with h'
            subst h'
            exact (updateSession_count _ _ _ _ h2 sid2).trans
              (updateSession_count _ _ _ _ h1 sid2)
  | trend_retrieval_complete cc ec etr m =>
      simp only [handleStreamEvent] at h
      cases hfind : findSession db sid with
      | none =>
          rw [hfind] at h
          cases etr with
          | none => injection h with h'; subst h'; rfl
          | some trends => injection h with h'; subst h'; rfl
      | some sess =>
          rw [hfind] at h
          cases etr with
          | none => injection h with h'; subst h'; rfl
          | some trends =>
              dsimp only at h
              obtain ⟨db1, h1, h⟩ := Option.bind_eq_some.mp h
              obtain ⟨db2, h2, h⟩ := Option.bind_eq_some.mp h
              injection h with h'
              subst h'
              exact (updateSession_count _ _ _ _ h2 sid2).trans
                (updateSession_count _ _ _ _ h1 sid2)
  | research_complete p =>
      simp only [handleStreamEvent] at h
      exact updateSession_count _ _ _ _ h sid2
  | approval_required m p =>
      simp only [handleStreamEvent] at h
      exact updateSession_count _ _ _ _ h sid2
  | idea_stream p raw =>
      rw [handleStreamEvent_idea_stream] at h
      cases hfind : findSession db sid with
      | none => rw [hfind] at h; exact absurd h (by simp)
      | some s =>
          rw [hfind] at h
          dsimp only at h
          injection h with h'
          subst h'
          exact filterSid_patchFirst db.sessions sid sid2 _ (fun _ => rfl)
  | complete im =>
      simp only [handleStreamEvent] at h
      cases hfind : findSession db sid with
      | none => rw [hfind] at h; injection h with h'; subst h'; rfl
      | some sess =>
          rw [hfind] at h
          dsimp only at h
          exact updateSession_count _ _ _ _ h sid2

/-- Projecting a whole run's events never changes the number of session
rows for any id. -/
theorem projectRunEvents_count (ck : Clock) (sid : String)
    (store? : Option (Scope × List String × String × String)) :
    ∀ (events : List Event) (db db' : DB),
      projectRunEvents ck db sid store? events = some db' →
      ∀ sid2, sessionCount db' sid2 = sessionCount db sid2 := by
  intro events
  induction events with
  | nil =>
      intro db db' h sid2
      unfold projectRunEvents at h
      injection h with h'; subst h'; rfl
  | cons e rest ih =>
      intro db db' h sid2
      unfold projectRunEvents at h
      obtain ⟨db1, h1, h2⟩ := Option.bind_eq_some.mp h
      exact ((ih _ db' h2 sid2).trans
        (storeStep_count sid ck.now store? e db1 sid2)).trans
        (handleStreamEvent_count ck db sid e db1 h1 sid2)

/-- `createSession` appends a fresh row for the supplied id. -/
theorem createSession_count (db : DB) (sid q : String) (ps : List String)
    (now : Nat) :
    sessionCount (createSession db sid q ps now) sid = sessionCount db sid + 1 := by
  unfold createSession sessionCount
  rw [List.filter_append]
  simp [List.filter]

/-- Claim C10, counterexample: invoking `startRun` twice with the same
sessionId leaves TWO session records for that id — `createSession`
inserts unconditionally instead of overwriting, so the at-most-one-record
claim fails. -/
theorem c10_counterexample :
    ((generateIdeasHandler cfgNone oTest ckTest dbEmpty ("q") [("LinkedIn")]
        ("s1") none).bind
      (fun db1 => generateIdeasHandler cfgNone oTest ckTest db1 ("q")
        [("LinkedIn")] ("s1") none)).map
      (fun db2 => sessionCount db2 ("s1")) = some 2 ∧ ¬ (2 ≤ 1) := by
  exact ⟨by rfl, by decide⟩

/-- Claim C10, amended: `startRun` always inserts a fresh session record
and never overwrites: every successful `generateIdeas` run leaves exactly
one more session record for the supplied sessionId than before (the rest
of the run only patches the first matching record in place), so a second
`startRun` with the same sessionId produces a duplicate record rather
than maintaining at most one. -/
theorem c10_always_inserts :
    ∀ cfg o ck db q ps sid mode db',
      generateIdeasHandler cfg o ck db q ps sid mode = some db' →
      sessionCount db' sid = sessionCount db sid + 1 := by
  intro cfg o ck db q ps sid mode db' h
  simp only [generateIdeasHandler] at h
  exact (projectRunEvents_count ck sid _ _ _ db' h sid).trans
    (createSession_count db sid q ps ck.now)

/-- Witness for C10's amended theorem: one deep-mode run on the empty
store yields exactly one `s1` record. -/
theorem c10_witness :
    generateIdeasHandler cfgNone oTest ckTest dbEmpty ("q") [("LinkedIn")]
      ("s1") none = some c10runDB ∧
    sessionCount c10runDB ("s1") = sessionCount dbEmpty ("s1") + 1 :=
  ⟨rfl,
   c10_always_inserts cfgNone oTest ckTest dbEmpty ("q") [("LinkedIn")]
     ("s1") none c10runDB rfl⟩

end MCA
